import Mathlib

/-!
Verification of the valuation engine of a stock-diary web application.

The source component is the `calculations` memo of the Valuation view
(`Valuation.calculations`): a pure chain of fourteen derived financial
metrics computed from a twelve-field record of editable assumptions,
together with the CSV export table and the Compare page's independent
re-derivation of a P/E ratio from saved valuation inputs.

Numbers are modelled as real numbers; JavaScript `Math.pow` is modelled
by the real power `Real.rpow` (written `x ^ y` for real `x`, `y`).
-/

noncomputable section

open Real

/-- The twelve user-editable valuation assumptions (`valuation` state). -/
@[ext]
structure ValuationInputs where
  currentPrice : ℝ
  investmentHorizon : ℝ
  currentSales : ℝ
  salesGrowthCAGR : ℝ
  netProfitMargin : ℝ
  sharesOutstanding : ℝ
  expectedPEAtYearEnd : ℝ
  shareRepurchaseDividendIssue : ℝ
  expectedReturn : ℝ
  marginOfSafetyPercent : ℝ
  tam : ℝ
  sam : ℝ

/-- The fourteen auto-calculated fields returned by the `calculations` memo,
with the field names used in the source. -/
structure ValuationOutputs where
  normalizedNetProfitMargin : ℝ
  normalizedEPS : ℝ
  normalizedCurrentPE : ℝ
  peExpansionPercent : ℝ
  salesAtYearEnd : ℝ
  penetrationRate : ℝ
  marketShare : ℝ
  netProfitAtYearEnd : ℝ
  epsAtYearEnd : ℝ
  epsExpansionPercent : ℝ
  totalReturn : ℝ
  dif : ℝ
  fairPrice : ℝ
  fairPriceWithMOS : ℝ

namespace Valuation

/-- Step 1 of the source chain: `valuation.currentSales * (valuation.netProfitMargin / 100)`. -/
def normalizedNetProfitMargin (v : ValuationInputs) : ℝ :=
  v.currentSales * (v.netProfitMargin / 100)

/-- Step 2: `valuation.sharesOutstanding > 0 ? normalizedNetProfitMargin / valuation.sharesOutstanding : 0`. -/
def normalizedEPS (v : ValuationInputs) : ℝ :=
  if v.sharesOutstanding > 0 then normalizedNetProfitMargin v / v.sharesOutstanding else 0

/-- Step 3: `normalizedEPS > 0 ? valuation.currentPrice / normalizedEPS : 0`. -/
def normalizedCurrentPE (v : ValuationInputs) : ℝ :=
  if normalizedEPS v > 0 then v.currentPrice / normalizedEPS v else 0

/-- Step 4: guarded by `normalizedCurrentPE > 0 && valuation.investmentHorizon > 0`. -/
def peExpansionPercent (v : ValuationInputs) : ℝ :=
  if normalizedCurrentPE v > 0 ∧ v.investmentHorizon > 0 then
    ((v.expectedPEAtYearEnd / normalizedCurrentPE v) ^ (1 / v.investmentHorizon) - 1) * 100
  else 0

/-- Step 5: `valuation.currentSales * Math.pow(1 + valuation.salesGrowthCAGR / 100, valuation.investmentHorizon)`. -/
def salesAtYearEnd (v : ValuationInputs) : ℝ :=
  v.currentSales * (1 + v.salesGrowthCAGR / 100) ^ v.investmentHorizon

/-- Step 6: `valuation.sam > 0 ? (valuation.tam / valuation.sam) * 100 : 0`. -/
def penetrationRate (v : ValuationInputs) : ℝ :=
  if v.sam > 0 then (v.tam / v.sam) * 100 else 0

/-- Step 7: `valuation.sam > 0 ? (salesAtYearEnd / valuation.sam) * 100 : 0`. -/
def marketShare (v : ValuationInputs) : ℝ :=
  if v.sam > 0 then (salesAtYearEnd v / v.sam) * 100 else 0

/-- Step 8: `salesAtYearEnd * (valuation.netProfitMargin / 100)`. -/
def netProfitAtYearEnd (v : ValuationInputs) : ℝ :=
  salesAtYearEnd v * (v.netProfitMargin / 100)

/-- Step 9, intermediate: `valuation.sharesOutstanding * Math.pow(1 - valuation.shareRepurchaseDividendIssue / 100, valuation.investmentHorizon)`. -/
def adjustedShares (v : ValuationInputs) : ℝ :=
  v.sharesOutstanding * (1 - v.shareRepurchaseDividendIssue / 100) ^ v.investmentHorizon

/-- Step 9: `adjustedShares > 0 ? (salesAtYearEnd * (valuation.netProfitMargin / 100)) / adjustedShares : 0`. -/
def epsAtYearEnd (v : ValuationInputs) : ℝ :=
  if adjustedShares v > 0 then
    (salesAtYearEnd v * (v.netProfitMargin / 100)) / adjustedShares v
  else 0

/-- Step 10: guarded by `normalizedEPS > 0 && valuation.investmentHorizon > 0`. -/
def epsExpansionPercent (v : ValuationInputs) : ℝ :=
  if normalizedEPS v > 0 ∧ v.investmentHorizon > 0 then
    ((epsAtYearEnd v / normalizedEPS v) ^ (1 / v.investmentHorizon) - 1) * 100
  else 0

/-- Step 11: `valuation.salesGrowthCAGR + peExpansionPercent + (peExpansionPercent * epsExpansionPercent / 100) + valuation.shareRepurchaseDividendIssue`. -/
def totalReturn (v : ValuationInputs) : ℝ :=
  v.salesGrowthCAGR + peExpansionPercent v +
    (peExpansionPercent v * epsExpansionPercent v / 100) +
    v.shareRepurchaseDividendIssue

/-- Step 12: `totalReturn - valuation.expectedReturn`. -/
def dif (v : ValuationInputs) : ℝ :=
  totalReturn v - v.expectedReturn

/-- Step 13: guarded by `valuation.investmentHorizon > 0`. -/
def fairPrice (v : ValuationInputs) : ℝ :=
  if v.investmentHorizon > 0 then
    (epsAtYearEnd v * v.expectedPEAtYearEnd) /
      (1 + v.expectedReturn / 100) ^ v.investmentHorizon
  else 0

/-- Step 14: `fairPrice * (1 - valuation.marginOfSafetyPercent / 100)`. -/
def fairPriceWithMOS (v : ValuationInputs) : ℝ :=
  fairPrice v * (1 - v.marginOfSafetyPercent / 100)

/-- The record returned by the `calculations` memo. -/
def calculations (v : ValuationInputs) : ValuationOutputs :=
  { normalizedNetProfitMargin := normalizedNetProfitMargin v
    normalizedEPS := normalizedEPS v
    normalizedCurrentPE := normalizedCurrentPE v
    peExpansionPercent := peExpansionPercent v
    salesAtYearEnd := salesAtYearEnd v
    penetrationRate := penetrationRate v
    marketShare := marketShare v
    netProfitAtYearEnd := netProfitAtYearEnd v
    epsAtYearEnd := epsAtYearEnd v
    epsExpansionPercent := epsExpansionPercent v
    totalReturn := totalReturn v
    dif := dif v
    fairPrice := fairPrice v
    fairPriceWithMOS := fairPriceWithMOS v }

end Valuation

/-! ### The specification's formula chain (§4.1), with the spec's field names

For the refinement claim, a second definition follows the spec's words:
`computeValuation` is the fifteen-step chain of §4.1 evaluated in dependency
order, producing the fourteen `ValuationOutputs` fields under the names the
spec uses. -/

/-- The fourteen output fields as the spec names them (§3). -/
structure SpecValuationOutputs where
  normalizedNetProfit : ℝ
  normalizedEPS : ℝ
  normalizedCurrentPE : ℝ
  peExpansionPercent : ℝ
  salesAtYearEnd : ℝ
  penetrationRate : ℝ
  marketSharePercent : ℝ
  netProfitAtYearEnd : ℝ
  epsAtYearEnd : ℝ
  epsExpansionPercent : ℝ
  totalReturnPercent : ℝ
  returnDifferencePercent : ℝ
  fairPrice : ℝ
  fairPriceWithMarginOfSafety : ℝ

/-- Spec §4.1: `computeValuation(inputs) -> ValuationOutputs`, the fifteen
formulas written exactly as the spec lists them, in dependency order. -/
def computeValuation (v : ValuationInputs) : SpecValuationOutputs :=
  let normalizedNetProfit := v.currentSales * (v.netProfitMargin / 100)
  let normalizedEPS :=
    if v.sharesOutstanding > 0 then normalizedNetProfit / v.sharesOutstanding else 0
  let normalizedCurrentPE :=
    if normalizedEPS > 0 then v.currentPrice / normalizedEPS else 0
  let peExpansionPercent :=
    if normalizedCurrentPE > 0 ∧ v.investmentHorizon > 0 then
      ((v.expectedPEAtYearEnd / normalizedCurrentPE) ^ (1 / v.investmentHorizon) - 1) * 100
    else 0
  let salesAtYearEnd := v.currentSales * (1 + v.salesGrowthCAGR / 100) ^ v.investmentHorizon
  let penetrationRate := if v.sam > 0 then (v.tam / v.sam) * 100 else 0
  let marketSharePercent := if v.sam > 0 then (salesAtYearEnd / v.sam) * 100 else 0
  let netProfitAtYearEnd := salesAtYearEnd * (v.netProfitMargin / 100)
  let adjustedShares :=
    v.sharesOutstanding * (1 - v.shareRepurchaseDividendIssue / 100) ^ v.investmentHorizon
  let epsAtYearEnd := if adjustedShares > 0 then netProfitAtYearEnd / adjustedShares else 0
  let epsExpansionPercent :=
    if normalizedEPS > 0 ∧ v.investmentHorizon > 0 then
      ((epsAtYearEnd / normalizedEPS) ^ (1 / v.investmentHorizon) - 1) * 100
    else 0
  let totalReturnPercent :=
    v.salesGrowthCAGR + peExpansionPercent +
      (peExpansionPercent * epsExpansionPercent / 100) + v.shareRepurchaseDividendIssue
  let returnDifferencePercent := totalReturnPercent - v.expectedReturn
  let fairPrice :=
    if v.investmentHorizon > 0 then
      (epsAtYearEnd * v.expectedPEAtYearEnd) / (1 + v.expectedReturn / 100) ^ v.investmentHorizon
    else 0
  let fairPriceWithMarginOfSafety := fairPrice * (1 - v.marginOfSafetyPercent / 100)
  { normalizedNetProfit := normalizedNetProfit
    normalizedEPS := normalizedEPS
    normalizedCurrentPE := normalizedCurrentPE
    peExpansionPercent := peExpansionPercent
    salesAtYearEnd := salesAtYearEnd
    penetrationRate := penetrationRate
    marketSharePercent := marketSharePercent
    netProfitAtYearEnd := netProfitAtYearEnd
    epsAtYearEnd := epsAtYearEnd
    epsExpansionPercent := epsExpansionPercent
    totalReturnPercent := totalReturnPercent
    returnDifferencePercent := returnDifferencePercent
    fairPrice := fairPrice
    fairPriceWithMarginOfSafety := fairPriceWithMarginOfSafety }

/-! ### The CSV export table

`exportToCSV` builds a list of rows; each cell is either a text label, a raw
number (`row.join` renders the JavaScript number as-is), or a number rendered
with `toFixed(2)`. The constructor records which formatting the source
applies to each cell. -/

/-- A cell of the exported CSV table. -/
inductive CsvCell where
  | text (s : String)
  | num (x : ℝ)
  | fixed2 (x : ℝ)

/-- Whether a cell is a numeric value formatted to 2 decimal places
(`toFixed(2)` in the source); text cells are vacuously fine. -/
def CsvCell.formatted2 : CsvCell → Bool
  | .num _ => false
  | _ => true

/-- Whether a cell is a raw, unformatted numeric value. -/
def CsvCell.rawNum : CsvCell → Bool
  | .num _ => true
  | _ => false

namespace Valuation

/-- The `data` array built by `exportToCSV`: header rows, the twelve editable
inputs exported raw, and the fourteen auto-calculated outputs exported with
`toFixed(2)`. -/
def exportToCSV (symbol : String) (v : ValuationInputs) : List (List CsvCell) :=
  [ [.text "Valuation Analysis", .text symbol],
    [.text ""],
    [.text "EDITABLE INPUTS", .text ""],
    [.text "Current Price", .num v.currentPrice],
    [.text "Investment Horizon (Years)", .num v.investmentHorizon],
    [.text "Current Sales (MB)", .num v.currentSales],
    [.text "%Sales Growth (CAGR)", .num v.salesGrowthCAGR],
    [.text "%Net Profit Margin", .num v.netProfitMargin],
    [.text "No. of Shares (Include Warrant)", .num v.sharesOutstanding],
    [.text "P/E @Year End", .num v.expectedPEAtYearEnd],
    [.text "Share Repurchase / Dividend Paid / Share Issue", .num v.shareRepurchaseDividendIssue],
    [.text "Expected Return", .num v.expectedReturn],
    [.text "Margin of Safety", .num v.marginOfSafetyPercent],
    [.text "TAM", .num v.tam],
    [.text "SAM", .num v.sam],
    [.text ""],
    [.text "AUTO-CALCULATED OUTPUTS", .text ""],
    [.text "Normalized Net Profit Margin", .fixed2 (calculations v).normalizedNetProfitMargin],
    [.text "Normalized EPS", .fixed2 (calculations v).normalizedEPS],
    [.text "Normalized Current P/E", .fixed2 (calculations v).normalizedCurrentPE],
    [.text "%P/E Expansion", .fixed2 (calculations v).peExpansionPercent],
    [.text "Sales @Year End", .fixed2 (calculations v).salesAtYearEnd],
    [.text "%Penetration Rate", .fixed2 (calculations v).penetrationRate],
    [.text "%Market Share", .fixed2 (calculations v).marketShare],
    [.text "Net Profit @Year End", .fixed2 (calculations v).netProfitAtYearEnd],
    [.text "EPS @Year End", .fixed2 (calculations v).epsAtYearEnd],
    [.text "%EPS Expansion", .fixed2 (calculations v).epsExpansionPercent],
    [.text "Total Return", .fixed2 (calculations v).totalReturn],
    [.text "Dif.", .fixed2 (calculations v).dif],
    [.text "Fair Price", .fixed2 (calculations v).fairPrice],
    [.text "Fair Price (Include MOS)", .fixed2 (calculations v).fairPriceWithMOS] ]

end Valuation

/-! ### The Compare page's re-derived P/E

`StockContext.tsx` (Compare table, P/E Ratio column): when the saved
valuation's `currentSales`, `sharesOutstanding` and `netProfitMargin` are all
truthy (nonzero), the page recomputes a normalized EPS without the engine's
`sharesOutstanding > 0` guard and derives a P/E from the stock-level price. -/

/-- The P/E value the Compare page derives from a stock's saved valuation
inputs and its stock-level `currentPrice`. -/
def comparePE (currentPrice currentSales netProfitMargin sharesOutstanding : ℝ) : ℝ :=
  let normalizedNetProfit := currentSales * (netProfitMargin / 100)
  let normalizedEPS := normalizedNetProfit / sharesOutstanding
  if normalizedEPS > 0 then currentPrice / normalizedEPS else 0

/-- Scenario 1 inputs of spec §8. -/
def scenario1 : ValuationInputs :=
  { currentPrice := 170
    investmentHorizon := 5
    currentSales := 1000
    salesGrowthCAGR := 15
    netProfitMargin := 20
    sharesOutstanding := 1000000
    expectedPEAtYearEnd := 25
    shareRepurchaseDividendIssue := 2
    expectedReturn := 15
    marginOfSafetyPercent := 25
    tam := 0
    sam := 0 }

/-- An input record whose fields are all zero. -/
def zeroInputs : ValuationInputs :=
  { currentPrice := 0
    investmentHorizon := 0
    currentSales := 0
    salesGrowthCAGR := 0
    netProfitMargin := 0
    sharesOutstanding := 0
    expectedPEAtYearEnd := 0
    shareRepurchaseDividendIssue := 0
    expectedReturn := 0
    marginOfSafetyPercent := 0
    tam := 0
    sam := 0 }

/-- A concrete run whose fair price is exactly 100 with a 25% margin of
safety: one share, no growth, no dilution, no discounting, terminal P/E 1. -/
def mosWitnessInputs : ValuationInputs :=
  { currentPrice := 170
    investmentHorizon := 1
    currentSales := 100
    salesGrowthCAGR := 0
    netProfitMargin := 100
    sharesOutstanding := 1
    expectedPEAtYearEnd := 1
    shareRepurchaseDividendIssue := 0
    expectedReturn := 0
    marginOfSafetyPercent := 25
    tam := 0
    sam := 0 }

/-- Scenario 1 with zero current sales (growth-rate monotonicity fails here:
projected sales are 0 for every growth rate). -/
def zeroSalesInputs : ValuationInputs :=
  { scenario1 with currentSales := 0 }

/-- A saved valuation with nonzero but negative sales and share count: the
Compare page's truthiness guard admits it, the engine's `> 0` guard does not. -/
def negSharesStock : ValuationInputs :=
  { scenario1 with currentSales := -100, netProfitMargin := 10, sharesOutstanding := -1 }

end

open Valuation

/-- C1: for every `ValuationInputs` record, the fourteen fields computed by
the source's `calculations` memo equal, field by field, the fifteen-step
formula chain of spec §4.1 (`computeValuation`) evaluated in dependency
order, guards included; Scenario 1's inputs yield
`normalizedNetProfit = 200`, `normalizedEPS = 0.0002` and
`salesAtYearEnd = 1000 * 1.15^5`; and any run with `fairPrice = 100` and
`marginOfSafetyPercent = 25` yields `fairPriceWithMarginOfSafety = 75`. -/
theorem calculations_match_spec_chain :
    (∀ v : ValuationInputs,
      (computeValuation v).normalizedNetProfit = (calculations v).normalizedNetProfitMargin ∧
      (computeValuation v).normalizedEPS = (calculations v).normalizedEPS ∧
      (computeValuation v).normalizedCurrentPE = (calculations v).normalizedCurrentPE ∧
      (computeValuation v).peExpansionPercent = (calculations v).peExpansionPercent ∧
      (computeValuation v).salesAtYearEnd = (calculations v).salesAtYearEnd ∧
      (computeValuation v).penetrationRate = (calculations v).penetrationRate ∧
      (computeValuation v).marketSharePercent = (calculations v).marketShare ∧
      (computeValuation v).netProfitAtYearEnd = (calculations v).netProfitAtYearEnd ∧
      (computeValuation v).epsAtYearEnd = (calculations v).epsAtYearEnd ∧
      (computeValuation v).epsExpansionPercent = (calculations v).epsExpansionPercent ∧
      (computeValuation v).totalReturnPercent = (calculations v).totalReturn ∧
      (computeValuation v).returnDifferencePercent = (calculations v).dif ∧
      (computeValuation v).fairPrice = (calculations v).fairPrice ∧
      (computeValuation v).fairPriceWithMarginOfSafety = (calculations v).fairPriceWithMOS) ∧
    ((calculations scenario1).normalizedNetProfitMargin = 200 ∧
      (calculations scenario1).normalizedEPS = 0.0002 ∧
      (calculations scenario1).salesAtYearEnd = 1000 * (1.15 : ℝ) ^ (5 : ℕ)) ∧
    (∀ v : ValuationInputs, v.marginOfSafetyPercent = 25 →
      (calculations v).fairPrice = 100 → (calculations v).fairPriceWithMOS = 75) := by
  refine ⟨fun v => ⟨rfl, rfl, rfl, rfl, rfl, rfl, rfl, rfl, rfl, rfl, rfl, rfl, rfl, rfl⟩,
    ⟨?_, ?_, ?_⟩, fun v h25 h100 => ?_⟩
  · simp [calculations, normalizedNetProfitMargin, scenario1]
    norm_num
  · simp only [calculations, normalizedEPS, normalizedNetProfitMargin, scenario1]
    rw [if_pos (by norm_num)]
    norm_num
  · simp only [calculations, salesAtYearEnd, scenario1]
    rw [show ((5:ℝ)) = ((5:ℕ):ℝ) by norm_num, Real.rpow_natCast]
    norm_num
  · have h100' : fairPrice v = 100 := h100
    show fairPriceWithMOS v = 75
    rw [fairPriceWithMOS, h100', h25]
    norm_num

/-- Witness for C1 at `mosWitnessInputs`: the margin-of-safety hypothesis and
the `fairPrice = 100` hypothesis hold there, and the theorem yields 75. -/
theorem calculations_match_spec_chain_witness :
    mosWitnessInputs.marginOfSafetyPercent = 25 ∧
      (calculations mosWitnessInputs).fairPrice = 100 ∧
      (calculations mosWitnessInputs).fairPriceWithMOS = 75 := by
  have h100 : (calculations mosWitnessInputs).fairPrice = 100 := by
    have hs : salesAtYearEnd mosWitnessInputs = 100 := by
      rw [salesAtYearEnd]
      simp only [mosWitnessInputs]
      rw [show ((1:ℝ) + 0 / 100) = 1 by norm_num, Real.one_rpow]
      norm_num
    have ha : adjustedShares mosWitnessInputs = 1 := by
      rw [adjustedShares]
      simp only [mosWitnessInputs]
      rw [show ((1:ℝ) - 0 / 100) = 1 by norm_num, Real.one_rpow]
      norm_num
    have he : epsAtYearEnd mosWitnessInputs = 100 := by
      rw [epsAtYearEnd, if_pos (by rw [ha]; norm_num), ha, hs]
      simp [mosWitnessInputs]
    show fairPrice mosWitnessInputs = 100
    rw [fairPrice, if_pos (by simp [mosWitnessInputs]), he]
    simp only [mosWitnessInputs]
    rw [show ((1:ℝ) + 0 / 100) = 1 by norm_num, Real.one_rpow]
    norm_num
  exact ⟨rfl, h100, calculations_match_spec_chain.2.2 mosWitnessInputs rfl h100⟩

/-- C2: every division whose denominator is `normalizedEPS` (both the
current-P/E and the EPS-expansion divisions), `investmentHorizon`,
`sharesOutstanding`, `sam` or `adjustedShares` falls back to 0 for the
affected output field when that denominator is zero; in particular `sam = 0`
forces `penetrationRate = 0` and `marketShare = 0`. -/
theorem zero_denominator_fallback (v : ValuationInputs) :
    (v.sharesOutstanding = 0 → (calculations v).normalizedEPS = 0) ∧
    ((calculations v).normalizedEPS = 0 →
      (calculations v).normalizedCurrentPE = 0 ∧ (calculations v).epsExpansionPercent = 0) ∧
    (v.investmentHorizon = 0 →
      (calculations v).peExpansionPercent = 0 ∧
      (calculations v).epsExpansionPercent = 0 ∧
      (calculations v).fairPrice = 0) ∧
    (v.sam = 0 → (calculations v).penetrationRate = 0 ∧ (calculations v).marketShare = 0) ∧
    (adjustedShares v = 0 → (calculations v).epsAtYearEnd = 0) := by
  refine ⟨fun h => ?_, fun h => ⟨?_, ?_⟩, fun h => ⟨?_, ?_, ?_⟩, fun h => ⟨?_, ?_⟩, fun h => ?_⟩
  · show normalizedEPS v = 0
    simp [normalizedEPS, h]
  · have h' : normalizedEPS v = 0 := h
    show normalizedCurrentPE v = 0
    simp [normalizedCurrentPE, h']
  · have h' : normalizedEPS v = 0 := h
    show epsExpansionPercent v = 0
    simp [epsExpansionPercent, h']
  · show peExpansionPercent v = 0
    simp [peExpansionPercent, h]
  · show epsExpansionPercent v = 0
    simp [epsExpansionPercent, h]
  · show fairPrice v = 0
    simp [fairPrice, h]
  · show penetrationRate v = 0
    simp [penetrationRate, h]
  · show marketShare v = 0
    simp [marketShare, h]
  · show epsAtYearEnd v = 0
    simp [epsAtYearEnd, h]

/-- Witness for C2 at the all-zero input record, where every guarded
denominator is zero at once. -/
theorem zero_denominator_fallback_witness :
    (calculations zeroInputs).normalizedEPS = 0 ∧
      (calculations zeroInputs).normalizedCurrentPE = 0 ∧
      (calculations zeroInputs).peExpansionPercent = 0 ∧
      (calculations zeroInputs).epsExpansionPercent = 0 ∧
      (calculations zeroInputs).fairPrice = 0 ∧
      (calculations zeroInputs).penetrationRate = 0 ∧
      (calculations zeroInputs).marketShare = 0 ∧
      (calculations zeroInputs).epsAtYearEnd = 0 := by
  obtain ⟨h1, h2, h3, h4, h5⟩ := zero_denominator_fallback zeroInputs
  have hEPS := h1 rfl
  have hAdj : adjustedShares zeroInputs = 0 := by
    simp [adjustedShares, zeroInputs]
  exact ⟨hEPS, (h2 hEPS).1, (h3 rfl).1, (h2 hEPS).2, (h3 rfl).2.2, (h4 rfl).1, (h4 rfl).2,
    h5 hAdj⟩

/-- C4: the valuation computation is deterministic and stateless — the
output record is a function of the twelve input fields alone, so two
invocations on field-identical inputs give identical outputs. -/
theorem calculations_deterministic (v₁ v₂ : ValuationInputs)
    (h : v₁.currentPrice = v₂.currentPrice ∧ v₁.investmentHorizon = v₂.investmentHorizon ∧
      v₁.currentSales = v₂.currentSales ∧ v₁.salesGrowthCAGR = v₂.salesGrowthCAGR ∧
      v₁.netProfitMargin = v₂.netProfitMargin ∧ v₁.sharesOutstanding = v₂.sharesOutstanding ∧
      v₁.expectedPEAtYearEnd = v₂.expectedPEAtYearEnd ∧
      v₁.shareRepurchaseDividendIssue = v₂.shareRepurchaseDividendIssue ∧
      v₁.expectedReturn = v₂.expectedReturn ∧
      v₁.marginOfSafetyPercent = v₂.marginOfSafetyPercent ∧
      v₁.tam = v₂.tam ∧ v₁.sam = v₂.sam) :
    calculations v₁ = calculations v₂ := by
  obtain ⟨h1, h2, h3, h4, h5, h6, h7, h8, h9, h10, h11, h12⟩ := h
  have hv : v₁ = v₂ := by ext <;> assumption
  rw [hv]

/-- Witness for C4: two textually distinct but field-identical invocations on
Scenario 1's inputs give equal outputs. -/
theorem calculations_deterministic_witness :
    calculations scenario1 = calculations { scenario1 with currentPrice := 170 } :=
  calculations_deterministic scenario1 { scenario1 with currentPrice := 170 }
    ⟨rfl, rfl, rfl, rfl, rfl, rfl, rfl, rfl, rfl, rfl, rfl, rfl⟩

/-- C5: with `sharesOutstanding = 0` and the other fields arbitrary,
`normalizedEPS = 0` and `normalizedCurrentPE = 0`, and the `adjustedShares`
guard (zero here, since shares are a factor of it) makes `epsAtYearEnd = 0`
with no division performed. -/
theorem sharesOutstanding_zero_guards (v : ValuationInputs)
    (h : v.sharesOutstanding = 0) :
    (calculations v).normalizedEPS = 0 ∧
      (calculations v).normalizedCurrentPE = 0 ∧
      adjustedShares v = 0 ∧
      (calculations v).epsAtYearEnd = 0 := by
  have hEPS : normalizedEPS v = 0 := by simp [normalizedEPS, h]
  have hAdj : adjustedShares v = 0 := by simp [adjustedShares, h]
  refine ⟨hEPS, ?_, hAdj, ?_⟩
  · show normalizedCurrentPE v = 0
    simp [normalizedCurrentPE, hEPS]
  · show epsAtYearEnd v = 0
    simp [epsAtYearEnd, hAdj]

/-- Witness for C5: Scenario 1's inputs with the share count zeroed out. -/
theorem sharesOutstanding_zero_guards_witness :
    (calculations { scenario1 with sharesOutstanding := 0 }).normalizedEPS = 0 ∧
      (calculations { scenario1 with sharesOutstanding := 0 }).normalizedCurrentPE = 0 ∧
      adjustedShares { scenario1 with sharesOutstanding := 0 } = 0 ∧
      (calculations { scenario1 with sharesOutstanding := 0 }).epsAtYearEnd = 0 :=
  sharesOutstanding_zero_guards { scenario1 with sharesOutstanding := 0 } rfl

/-- C6 counterexample: with `currentSales = 0` (Scenario 1 otherwise, horizon
5 > 0) and growth rates 0 < 1, `salesAtYearEnd` is 0 for both rates, so it is
not strictly increasing in `salesGrowthCAGR`. -/
theorem salesGrowth_not_strictly_monotone :
    0 < zeroSalesInputs.investmentHorizon ∧ (0 : ℝ) < 1 ∧
      ¬ salesAtYearEnd { zeroSalesInputs with salesGrowthCAGR := 0 } <
          salesAtYearEnd { zeroSalesInputs with salesGrowthCAGR := 1 } := by
  refine ⟨by norm_num [zeroSalesInputs, scenario1], by norm_num, ?_⟩
  simp [salesAtYearEnd, zeroSalesInputs, scenario1]

/-- C6 amended: holding everything else fixed, with `investmentHorizon > 0`,
`currentSales > 0` and growth rates at least −100 (nonnegative growth
factor), a strictly larger `salesGrowthCAGR` gives strictly larger
`salesAtYearEnd`. -/
theorem salesGrowth_strictly_monotone (v : ValuationInputs) (g₁ g₂ : ℝ)
    (hh : 0 < v.investmentHorizon) (hs : 0 < v.currentSales)
    (hg : -100 ≤ g₁) (hlt : g₁ < g₂) :
    salesAtYearEnd { v with salesGrowthCAGR := g₁ } <
      salesAtYearEnd { v with salesGrowthCAGR := g₂ } := by
  simp only [salesAtYearEnd]
  apply mul_lt_mul_of_pos_left _ hs
  apply Real.rpow_lt_rpow (by linarith) (by linarith) hh

/-- Witness for C6 amended, at Scenario 1's inputs with growth rates 0 < 1. -/
theorem salesGrowth_strictly_monotone_witness :
    0 < scenario1.investmentHorizon ∧ 0 < scenario1.currentSales ∧
      (-100 : ℝ) ≤ 0 ∧ (0 : ℝ) < 1 ∧
      salesAtYearEnd { scenario1 with salesGrowthCAGR := 0 } <
        salesAtYearEnd { scenario1 with salesGrowthCAGR := 1 } :=
  ⟨by norm_num [scenario1], by norm_num [scenario1], by norm_num, by norm_num,
    salesGrowth_strictly_monotone scenario1 0 1 (by norm_num [scenario1])
      (by norm_num [scenario1]) (by norm_num) (by norm_num)⟩

/-- C7 counterexample: the exported table is not made of 2-decimal-formatted
numeric values throughout — at Scenario 1's inputs some numeric cell (the raw
`Current Price` input, among others) is exported unformatted. -/
theorem export_not_all_formatted :
    ((exportToCSV "AAPL" scenario1).all fun row => row.all CsvCell.formatted2) = false := by
  simp [exportToCSV, CsvCell.formatted2]

/-- C7 amended: in the exported `(label, value)` table, the fourteen
auto-calculated output values are formatted to 2 decimal places, while the
twelve editable input values are exported as raw numbers. -/
theorem export_outputs_formatted (sym : String) (v : ValuationInputs) :
    (((exportToCSV sym v).drop 17).all fun row => row.all CsvCell.formatted2) = true ∧
      ((((exportToCSV sym v).drop 3).take 12).all fun row => row.any CsvCell.rawNum) = true := by
  constructor <;> simp [exportToCSV, CsvCell.formatted2, CsvCell.rawNum]

/-- C8: with `currentSales = 0`, the five sales-derived percentages are 0, so
`totalReturn` collapses to `salesGrowthCAGR + shareRepurchaseDividendIssue`
and `dif` to `salesGrowthCAGR + shareRepurchaseDividendIssue - expectedReturn`. -/
theorem currentSales_zero_collapse (v : ValuationInputs) (h : v.currentSales = 0) :
    (calculations v).normalizedNetProfitMargin = 0 ∧
      (calculations v).normalizedEPS = 0 ∧
      (calculations v).normalizedCurrentPE = 0 ∧
      (calculations v).peExpansionPercent = 0 ∧
      (calculations v).epsExpansionPercent = 0 ∧
      (calculations v).totalReturn = v.salesGrowthCAGR + v.shareRepurchaseDividendIssue ∧
      (calculations v).dif =
        v.salesGrowthCAGR + v.shareRepurchaseDividendIssue - v.expectedReturn := by
  have h1 : normalizedNetProfitMargin v = 0 := by simp [normalizedNetProfitMargin, h]
  have h2 : normalizedEPS v = 0 := by
    unfold normalizedEPS
    rw [h1]
    simp
  have h3 : normalizedCurrentPE v = 0 := by simp [normalizedCurrentPE, h2]
  have h4 : peExpansionPercent v = 0 := by simp [peExpansionPercent, h3]
  have h5 : epsExpansionPercent v = 0 := by simp [epsExpansionPercent, h2]
  have h6 : totalReturn v = v.salesGrowthCAGR + v.shareRepurchaseDividendIssue := by
    rw [totalReturn, h4, h5]
    ring
  exact ⟨h1, h2, h3, h4, h5, h6, by rw [show (calculations v).dif = dif v from rfl, dif, h6]⟩

/-- Witness for C8: Scenario 1's inputs with current sales zeroed out
(growth 15, buyback 2, expected return 15). -/
theorem currentSales_zero_collapse_witness :
    (calculations zeroSalesInputs).normalizedNetProfitMargin = 0 ∧
      (calculations zeroSalesInputs).normalizedEPS = 0 ∧
      (calculations zeroSalesInputs).normalizedCurrentPE = 0 ∧
      (calculations zeroSalesInputs).peExpansionPercent = 0 ∧
      (calculations zeroSalesInputs).epsExpansionPercent = 0 ∧
      (calculations zeroSalesInputs).totalReturn =
        zeroSalesInputs.salesGrowthCAGR + zeroSalesInputs.shareRepurchaseDividendIssue ∧
      (calculations zeroSalesInputs).dif =
        zeroSalesInputs.salesGrowthCAGR + zeroSalesInputs.shareRepurchaseDividendIssue -
          zeroSalesInputs.expectedReturn :=
  currentSales_zero_collapse zeroSalesInputs rfl

/-- C9: with a 100% annual share reduction, a positive horizon and an
expected return above −100%, `adjustedShares` is exactly 0, hence
`epsAtYearEnd`, `fairPrice` and `fairPriceWithMOS` are all 0 regardless of
every other input field. -/
theorem full_share_reduction_zeroes_price (v : ValuationInputs)
    (h : v.shareRepurchaseDividendIssue = 100) (hh : 0 < v.investmentHorizon)
    (_hr : -100 < v.expectedReturn) :
    adjustedShares v = 0 ∧
      (calculations v).epsAtYearEnd = 0 ∧
      (calculations v).fairPrice = 0 ∧
      (calculations v).fairPriceWithMOS = 0 := by
  have ha : adjustedShares v = 0 := by
    rw [adjustedShares, h, show (1 - (100:ℝ)/100) = 0 by norm_num,
      Real.zero_rpow (ne_of_gt hh), mul_zero]
  have he : epsAtYearEnd v = 0 := by simp [epsAtYearEnd, ha]
  have hf : fairPrice v = 0 := by
    rw [fairPrice, if_pos hh, he, zero_mul, zero_div]
  exact ⟨ha, he, hf, by rw [show (calculations v).fairPriceWithMOS = fairPriceWithMOS v from rfl,
    fairPriceWithMOS, hf, zero_mul]⟩

/-- Witness for C9: Scenario 1's inputs with the share-change rate set to
100% (horizon 5 > 0, expected return 15 > −100). -/
theorem full_share_reduction_zeroes_price_witness :
    adjustedShares { scenario1 with shareRepurchaseDividendIssue := 100 } = 0 ∧
      (calculations { scenario1 with shareRepurchaseDividendIssue := 100 }).epsAtYearEnd = 0 ∧
      (calculations { scenario1 with shareRepurchaseDividendIssue := 100 }).fairPrice = 0 ∧
      (calculations { scenario1 with shareRepurchaseDividendIssue := 100 }).fairPriceWithMOS = 0 :=
  full_share_reduction_zeroes_price { scenario1 with shareRepurchaseDividendIssue := 100 }
    rfl (by norm_num [scenario1]) (by norm_num [scenario1])

/-- C10 counterexample: a stock whose saved valuation has nonzero (negative)
`currentSales = -100`, `netProfitMargin = 10` and `sharesOutstanding = -1`
with price 170: the Compare page derives EPS −10 / −1 = 10 and P/E 17, while
the engine's `sharesOutstanding > 0` guard makes `normalizedCurrentPE = 0`. -/
theorem comparePE_diverges_from_engine :
    negSharesStock.currentSales ≠ 0 ∧ negSharesStock.sharesOutstanding ≠ 0 ∧
      negSharesStock.netProfitMargin ≠ 0 ∧
      comparePE negSharesStock.currentPrice negSharesStock.currentSales
        negSharesStock.netProfitMargin negSharesStock.sharesOutstanding = 17 ∧
      (calculations negSharesStock).normalizedCurrentPE = 0 := by
  refine ⟨by norm_num [negSharesStock, scenario1], by norm_num [negSharesStock, scenario1],
    by norm_num [negSharesStock, scenario1], ?_, ?_⟩
  · rw [comparePE]
    simp only [negSharesStock, scenario1]
    rw [if_pos (by norm_num)]
    norm_num
  · have he : normalizedEPS negSharesStock = 0 := by
      rw [normalizedEPS, if_neg]
      simp [negSharesStock, scenario1]
    simp [calculations, normalizedCurrentPE, he]

/-- C10 amended: for a stock whose valuation has nonzero `currentSales` and
`netProfitMargin` and strictly positive `sharesOutstanding`, and whose
stock-level price equals the valuation's price, the Compare page's re-derived
P/E equals the engine's `normalizedCurrentPE`. -/
theorem comparePE_matches_engine (v : ValuationInputs)
    (_hsales : v.currentSales ≠ 0) (_hmargin : v.netProfitMargin ≠ 0)
    (hs : 0 < v.sharesOutstanding) :
    comparePE v.currentPrice v.currentSales v.netProfitMargin v.sharesOutstanding =
      (calculations v).normalizedCurrentPE := by
  simp only [comparePE, calculations, normalizedCurrentPE, normalizedEPS,
    normalizedNetProfitMargin, if_pos hs]

/-- Witness for C10 amended, at Scenario 1's saved valuation. -/
theorem comparePE_matches_engine_witness :
    scenario1.currentSales ≠ 0 ∧ scenario1.netProfitMargin ≠ 0 ∧
      0 < scenario1.sharesOutstanding ∧
      comparePE scenario1.currentPrice scenario1.currentSales scenario1.netProfitMargin
        scenario1.sharesOutstanding = (calculations scenario1).normalizedCurrentPE :=
  ⟨by norm_num [scenario1], by norm_num [scenario1], by norm_num [scenario1],
    comparePE_matches_engine scenario1 (by norm_num [scenario1]) (by norm_num [scenario1])
      (by norm_num [scenario1])⟩
